import Mathlib

/-!
Shallow embedding of the trip participation and realtime chat workflow of the
travel-buddy-frontend application, together with theorems checking the
specification's claims against it.

Tables are embedded as lists of rows; timestamps and identifiers are natural
numbers; each screen handler becomes a pure function from a backend state (and
the handler's inputs) to a new backend state or an error.  Server-side remote
procedures that are not part of the repository's source are modelled from the
specification and are marked as such in their doc comments.
-/

namespace TravelBuddy

/-- Model of JavaScript String.prototype.trim, used by the screens via
`.trim()`: removes leading and trailing whitespace.  Defined over the character
list so that it reduces in the kernel. -/
def jsTrim (s : String) : String :=
  String.mk (((s.toList.dropWhile Char.isWhitespace).reverse.dropWhile Char.isWhitespace).reverse)

/-- Row of the `trips` table (fields read by the screens: TripDetailsScreen.tsx
`interface TripDetails`, TripsScreen `interface Trip`). -/
structure Trip where
  id : Nat
  title : String
  description : String
  start_date : Nat
  end_date : Nat
  start_location : String
  organizer_id : Nat
  max_participants : Nat
  deriving DecidableEq, Repr

/-- Row of the `trip_participants` table (TripDetailsScreen.tsx
`interface Participant`). -/
structure Participant where
  id : Nat
  trip_id : Nat
  user_id : Nat
  approved : Bool
  deriving DecidableEq, Repr

/-- Row of the `chat_rooms` table (TripChatScreen.tsx `interface ChatRoom`). -/
structure ChatRoom where
  id : Nat
  trip_id : Nat
  created_at : Nat
  deriving DecidableEq, Repr

/-- Row of the `chat_room_participants` table: the membership marker granting a
user access to a room (queried in TripChatScreen.tsx `getChatRoom`). -/
structure ChatRoomParticipant where
  room_id : Nat
  user_id : Nat
  deriving DecidableEq, Repr

/-- Row of the `chat_messages` table (TripChatScreen.tsx `interface
ChatMessage`, without the joined sender fields). -/
structure ChatMessage where
  id : Nat
  room_id : Nat
  user_id : Nat
  message : String
  created_at : Nat
  deriving DecidableEq, Repr

/-- Row of the `profiles` table, restricted to the display fields the chat and
trip screens select (firstname, lastname, avatar_url). -/
structure Profile where
  id : Nat
  firstname : String
  lastname : String
  avatar_url : Option String
  deriving DecidableEq, Repr

/-- The backend state: one list of rows per table touched by the embedded
workflow. -/
structure Backend where
  trips : List Trip
  trip_participants : List Participant
  chat_rooms : List ChatRoom
  chat_room_participants : List ChatRoomParticipant
  chat_messages : List ChatMessage
  profiles : List Profile
  deriving DecidableEq, Repr

/-- The `trip_participants` rows of one trip (TripDetailsScreen.tsx
`fetchTripDetails`, query `.eq('trip_id', tripId)`). -/
def tripParticipants (db : Backend) (tripId : Nat) : List Participant :=
  db.trip_participants.filter (fun p => p.trip_id == tripId)

/-- The `participantCount` state of TripDetailsScreen.tsx line 107: the number
of approved participant rows of the trip. -/
def participantCount (db : Backend) (tripId : Nat) : Nat :=
  ((tripParticipants db tripId).filter (fun p => p.approved)).length

/-- The `userParticipation` lookup of TripDetailsScreen.tsx line 110: the
viewer's participant row for this trip, if any. -/
def userParticipation (db : Backend) (tripId uid : Nat) : Option Participant :=
  (tripParticipants db tripId).find? (fun p => p.user_id == uid)

/-- The `isOrganizer` state of TripDetailsScreen.tsx line 87. -/
def isOrganizerView (t : Trip) (uid : Nat) : Bool :=
  t.organizer_id == uid

/-- The `isParticipant` state of TripDetailsScreen.tsx line 111:
`userParticipation?.approved || false`. -/
def isParticipantView (db : Backend) (tripId uid : Nat) : Bool :=
  match userParticipation db tripId uid with
  | some p => p.approved
  | none => false

/-- The `isPendingApproval` state of TripDetailsScreen.tsx line 112:
`userParticipation && !userParticipation.approved` (undefined, hence falsy,
when no row exists). -/
def isPendingApprovalView (db : Backend) (tripId uid : Nat) : Bool :=
  match userParticipation db tripId uid with
  | some p => !p.approved
  | none => false

/-- Errors of the join-request flow. -/
inductive JoinError where
  | AlreadyFull
  | AlreadyMember
  | TripNotFound
  deriving DecidableEq, Repr

/-- Modelled from the spec: the server remote procedure `apply_for_trip` is not
part of src/ (only its caller `handleJoinTrip` is).  Per the spec it "enforces
the one-row-per-user-per-trip and capacity rule server-side": it fails with
`AlreadyFull` if the count of approved participants has reached
`max_participants`, fails with `AlreadyMember` if a participant row already
exists for this pair, and otherwise creates a participant row with
`approved = false`. -/
def apply_for_trip (db : Backend) (tripId uid newId : Nat) : Except JoinError Backend :=
  match db.trips.find? (fun t => t.id == tripId) with
  | none => .error .TripNotFound
  | some t =>
    if participantCount db tripId ≥ t.max_participants then .error .AlreadyFull
    else
      match userParticipation db tripId uid with
      | some _ => .error .AlreadyMember
      | none =>
        .ok { db with trip_participants := db.trip_participants ++ [⟨newId, tripId, uid, false⟩] }

/-- The `handleJoinTrip` handler of TripDetailsScreen.tsx lines 131-159: the
client first rejects with the trip-full alert when
`participantCount >= trip.max_participants` (the approved count fetched by
`fetchTripDetails`) and otherwise invokes the `apply_for_trip` remote
procedure. -/
def handleJoinTrip (db : Backend) (t : Trip) (uid newId : Nat) : Except JoinError Backend :=
  if participantCount db t.id ≥ t.max_participants then .error .AlreadyFull
  else apply_for_trip db t.id uid newId

/-- Concrete backend used to witness the join-capacity theorem. -/
def exDbC1 : Backend :=
  { trips := [⟨1, "Alps", "Hiking week", 10, 20, "Geneva", 5, 2⟩]
    trip_participants := []
    chat_rooms := []
    chat_room_participants := []
    chat_messages := []
    profiles := [] }

/-- Concrete trip used to witness the join-capacity theorem. -/
def exTripC1 : Trip := ⟨1, "Alps", "Hiking week", 10, 20, "Geneva", 5, 2⟩

/-- Claim C1: the join request fails with `AlreadyFull` exactly when the count
of approved participants has reached `max_participants`; pending (unapproved)
rows do not count against capacity; and a request below the boundary creates a
participant row with `approved = false`. -/
theorem requestToJoin_capacity_boundary (db : Backend) (t : Trip) (uid newId : Nat)
    (ht : db.trips.find? (fun x => x.id == t.id) = some t) :
    (handleJoinTrip db t uid newId = .error .AlreadyFull
      ↔ participantCount db t.id ≥ t.max_participants)
    ∧ (participantCount db t.id < t.max_participants →
        userParticipation db t.id uid = none →
        handleJoinTrip db t uid newId =
          .ok { db with trip_participants := db.trip_participants ++ [⟨newId, t.id, uid, false⟩] })
    ∧ (∀ q : Participant, q.approved = false →
        participantCount { db with trip_participants := db.trip_participants ++ [q] } t.id
          = participantCount db t.id) := by
  refine ⟨?_, ?_, ?_⟩
  · by_cases hfull : participantCount db t.id ≥ t.max_participants
    · simp only [handleJoinTrip, if_pos hfull]
      exact ⟨fun _ => hfull, fun _ => trivial⟩
    · simp only [handleJoinTrip, if_neg hfull]
      constructor
      · intro hres
        exfalso
        simp only [apply_for_trip, ht, if_neg hfull] at hres
        cases hu : userParticipation db t.id uid <;> rw [hu] at hres <;> simp at hres
      · intro hge
        exact absurd hge hfull
  · intro hlt hnone
    have hfull : ¬ participantCount db t.id ≥ t.max_participants := by omega
    simp only [handleJoinTrip, if_neg hfull, apply_for_trip, ht, hnone]
  · intro q hq
    by_cases hqt : (q.trip_id == t.id) = true <;>
      simp [participantCount, tripParticipants, List.filter_append, hqt, hq]

/-- Witness for the join-capacity theorem at a concrete input: an empty trip
with capacity 2 accepts user 7's request as a pending row. -/
theorem requestToJoin_capacity_boundary_witness :
    handleJoinTrip exDbC1 exTripC1 7 3 =
      .ok { exDbC1 with trip_participants := [⟨3, 1, 7, false⟩] } :=
  (requestToJoin_capacity_boundary exDbC1 exTripC1 7 3 rfl).2.1 (by decide) (by decide)

/-- Insertion step of a stable sort by a natural-number key. -/
def insertLeBy {α : Type} (key : α → Nat) (a : α) : List α → List α
  | [] => [a]
  | b :: l => if key a ≤ key b then a :: b :: l else b :: insertLeBy key a l

/-- Stable insertion sort by a natural-number key: the embedding of the
backend's `order(column, { ascending: true })` modifier on a row select. -/
def sortLeBy {α : Type} (key : α → Nat) : List α → List α
  | [] => []
  | a :: l => insertLeBy key a (sortLeBy key l)

/-- Inserting an element permutes consing it in front. -/
theorem insertLeBy_perm {α : Type} (key : α → Nat) (a : α) :
    ∀ l : List α, (insertLeBy key a l).Perm (a :: l)
  | [] => List.Perm.refl _
  | b :: l => by
    unfold insertLeBy
    split
    · exact List.Perm.refl _
    · exact ((insertLeBy_perm key a l).cons b).trans (List.Perm.swap a b l)

/-- Sorting by key permutes the input list. -/
theorem sortLeBy_perm {α : Type} (key : α → Nat) :
    ∀ l : List α, (sortLeBy key l).Perm l
  | [] => List.Perm.refl _
  | a :: l => (insertLeBy_perm key a (sortLeBy key l)).trans ((sortLeBy_perm key l).cons a)

/-- Inserting into a key-sorted list keeps it key-sorted. -/
theorem insertLeBy_pairwise {α : Type} (key : α → Nat) (a : α) :
    ∀ {l : List α}, List.Pairwise (fun x y => key x ≤ key y) l →
      List.Pairwise (fun x y => key x ≤ key y) (insertLeBy key a l)
  | [], _ => List.pairwise_singleton _ _
  | b :: l, h => by
    unfold insertLeBy
    rw [List.pairwise_cons] at h
    split
    next hab =>
      refine List.pairwise_cons.mpr ⟨?_, List.pairwise_cons.mpr ⟨h.1, h.2⟩⟩
      intro x hx
      rcases List.mem_cons.mp hx with rfl | hx
      · exact hab
      · exact le_trans hab (h.1 x hx)
    next hab =>
      refine List.pairwise_cons.mpr ⟨?_, insertLeBy_pairwise key a h.2⟩
      intro x hx
      rcases List.mem_cons.mp ((insertLeBy_perm key a l).mem_iff.mp hx) with rfl | hx
      · exact le_of_not_le hab
      · exact h.1 x hx

/-- The sort by key is sorted (ascending, non-strict). -/
theorem sortLeBy_pairwise {α : Type} (key : α → Nat) :
    ∀ l : List α, List.Pairwise (fun x y => key x ≤ key y) (sortLeBy key l)
  | [] => List.Pairwise.nil
  | a :: l => insertLeBy_pairwise key a (sortLeBy_pairwise key l)

/-- The secondary per-trip count query of the trips directory (TripsScreen
`fetchTrips`, src/unnamed/part_002 lines 51-60): a head count over
`trip_participants` filtered by `trip_id` only — the query carries no filter on
`approved`. -/
def tripCountQuery (db : Backend) (tripId : Nat) : Nat :=
  (db.trip_participants.filter (fun p => p.trip_id == tripId)).length

/-- The `fetchTrips` of the trips directory (src/unnamed/part_002 lines
29-72): select all trips ordered by `start_date` ascending, then attach one
secondary participant count per listed trip. -/
def fetchTrips (db : Backend) : List (Trip × Nat) :=
  (sortLeBy (fun t => t.start_date) db.trips).map (fun t => (t, tripCountQuery db t.id))

/-- Concrete trip used for the directory-count counterexample. -/
def exTripC2 : Trip := ⟨1, "Alps", "Hiking week", 10, 20, "Geneva", 5, 4⟩

/-- Concrete backend for the directory-count counterexample: trip 1 has a
single, still pending participant row. -/
def exDbC2 : Backend := ⟨[exTripC2], [⟨1, 1, 42, false⟩], [], [], [], []⟩

/-- Claim C2 counterexample: the directory listing attaches count 1 to a trip
whose only participant row is pending, while its approved-participant count is
0 — the displayed count is not the approved count. -/
theorem fetchTrips_counts_pending_counterexample :
    fetchTrips exDbC2 = [(exTripC2, 1)] ∧ participantCount exDbC2 1 = 0 :=
  ⟨rfl, rfl⟩

/-- Claim C2 (amended): the directory listing pairs every trip with one
secondary count, and that count equals the number of ALL participant rows of
the trip — pending rows included, since the count query has no `approved`
filter. -/
theorem fetchTrips_count_equals_all_rows (db : Backend) :
    ((fetchTrips db).map Prod.fst).Perm db.trips
    ∧ ∀ pr ∈ fetchTrips db,
        pr.2 = (db.trip_participants.filter (fun p => p.trip_id == pr.1.id)).length := by
  constructor
  · have hmap : (fetchTrips db).map Prod.fst = sortLeBy (fun t => t.start_date) db.trips := by
      simp [fetchTrips, List.map_map, Function.comp_def]
    rw [hmap]
    exact sortLeBy_perm _ _
  · intro pr hpr
    simp only [fetchTrips, List.mem_map] at hpr
    obtain ⟨t, _, rfl⟩ := hpr
    rfl

/-- Witness for the amended directory-count theorem at the concrete backend:
the single listed pair carries the count of all participant rows of trip 1. -/
theorem fetchTrips_count_equals_all_rows_witness :
    (exTripC2, 1).2
      = (exDbC2.trip_participants.filter (fun p => p.trip_id == (exTripC2, 1).1.id)).length :=
  (fetchTrips_count_equals_all_rows exDbC2).2 (exTripC2, 1) (by decide)

/-- The open-chat branch of the action buttons (TripDetailsScreen.tsx line
425: `isParticipant || isOrganizer`). -/
def showsOpenChat (isPart isOrg : Bool) : Bool := isPart || isOrg

/-- The pending-indicator branch of the action buttons (TripDetailsScreen.tsx
line 432: reached when the open-chat test fails and `isPendingApproval`
holds). -/
def showsPendingIndicator (isPart isOrg isPending : Bool) : Bool :=
  !(isPart || isOrg) && isPending

/-- The join-button branch of the action buttons (TripDetailsScreen.tsx line
438: the final else of the ternary chain). -/
def showsJoinButton (isPart isOrg isPending : Bool) : Bool :=
  !(isPart || isOrg) && !isPending

/-- Concrete trip for the viewer-state counterexample: user 7 organizes it. -/
def exTripC7 : Trip := ⟨1, "Alps", "Hiking week", 10, 20, "Geneva", 7, 4⟩

/-- Concrete backend for the viewer-state counterexample: organizer 7 also has
an approved participant row on the own trip. -/
def exDbC7 : Backend := ⟨[exTripC7], [⟨1, 1, 7, true⟩], [], [], [], []⟩

/-- Claim C7 counterexample: viewer 7 is reported both as the organizer and as
an approved participant of trip 1, so the four viewer states are not mutually
exclusive as claimed. -/
theorem viewerStates_not_exclusive_counterexample :
    isOrganizerView exTripC7 7 = true ∧ isParticipantView exDbC7 1 7 = true :=
  ⟨rfl, rfl⟩

/-- Claim C7 (amended): the approved-participant and pending-applicant states
are mutually exclusive, and the screen always exposes exactly one
call-to-action, chosen by precedence open-chat (approved participant or
organizer), else pending-indicator, else join; the organizer state, however,
may coincide with a participant state, so the four states are not pairwise
exclusive. -/
theorem callToAction_unique (db : Backend) (t : Trip) (tripId uid : Nat) :
    (isParticipantView db tripId uid && isPendingApprovalView db tripId uid) = false
    ∧ (showsOpenChat (isParticipantView db tripId uid) (isOrganizerView t uid)).toNat
        + (showsPendingIndicator (isParticipantView db tripId uid) (isOrganizerView t uid)
            (isPendingApprovalView db tripId uid)).toNat
        + (showsJoinButton (isParticipantView db tripId uid) (isOrganizerView t uid)
            (isPendingApprovalView db tripId uid)).toNat = 1 := by
  constructor
  · cases h : userParticipation db tripId uid with
    | none => simp [isParticipantView, isPendingApprovalView, h]
    | some p => cases hp : p.approved <;> simp [isParticipantView, isPendingApprovalView, h, hp]
  · have hone : ∀ a b c : Bool,
        (showsOpenChat a b).toNat + (showsPendingIndicator a b c).toNat
          + (showsJoinButton a b c).toNat = 1 := by decide
    exact hone _ _ _

/-- Sender display fields joined onto a message (the
`sender:profiles(firstname, lastname, avatar_url)` join of
TripChatScreen.tsx). -/
structure SenderInfo where
  firstname : String
  lastname : String
  avatar_url : Option String
  deriving DecidableEq, Repr

/-- A message as held in the screen's `messages` state: the raw row plus the
joined sender fields (TripChatScreen.tsx `interface ChatMessage`). -/
structure DisplayMessage where
  row : ChatMessage
  sender : Option SenderInfo
  deriving DecidableEq, Repr

/-- Lookup of a user's display fields in `profiles` (the select issued by the
sender join of `fetchMessages` and by the subscription callback). -/
def profileSender (db : Backend) (uid : Nat) : Option SenderInfo :=
  (db.profiles.find? (fun pr => pr.id == uid)).map
    (fun pr => ⟨pr.firstname, pr.lastname, pr.avatar_url⟩)

/-- The room id the find-or-create resolution of a trip's chat room yields:
the id of the first existing room of the trip, else the id the backend assigns
to the freshly created room. -/
def resolvedRoomId (db : Backend) (tripId newRoomId : Nat) : Nat :=
  match db.chat_rooms.find? (fun r => r.trip_id == tripId) with
  | some r => r.id
  | none => newRoomId

/-- Modelled from the spec: the server remote procedure
`get_or_create_trip_chat_room` is not part of src/ (only its callers are).
Per the spec it finds or creates the one chat room of the trip and returns its
id; `newRoomId` stands for the id the backend assigns when it has to create
the room. -/
def get_or_create_trip_chat_room (db : Backend) (tripId newRoomId : Nat) : Backend × Nat :=
  match db.chat_rooms.find? (fun r => r.trip_id == tripId) with
  | some r => (db, r.id)
  | none => ({ db with chat_rooms := db.chat_rooms ++ [⟨newRoomId, tripId, 0⟩] }, newRoomId)

/-- The room resolution only ever touches the `chat_rooms` table. -/
theorem get_or_create_fields (db : Backend) (tripId newRoomId : Nat) :
    (get_or_create_trip_chat_room db tripId newRoomId).1.trips = db.trips
    ∧ (get_or_create_trip_chat_room db tripId newRoomId).1.trip_participants
        = db.trip_participants
    ∧ (get_or_create_trip_chat_room db tripId newRoomId).1.chat_room_participants
        = db.chat_room_participants
    ∧ (get_or_create_trip_chat_room db tripId newRoomId).1.chat_messages = db.chat_messages
    ∧ (get_or_create_trip_chat_room db tripId newRoomId).1.profiles = db.profiles := by
  unfold get_or_create_trip_chat_room
  cases h : db.chat_rooms.find? (fun r => r.trip_id == tripId) <;> exact ⟨rfl, rfl, rfl, rfl, rfl⟩

/-- The room resolution returns the resolved room id. -/
theorem get_or_create_snd (db : Backend) (tripId newRoomId : Nat) :
    (get_or_create_trip_chat_room db tripId newRoomId).2 = resolvedRoomId db tripId newRoomId := by
  unfold get_or_create_trip_chat_room resolvedRoomId
  cases h : db.chat_rooms.find? (fun r => r.trip_id == tripId) <;> rfl

/-- The `fetchMessages` of TripChatScreen.tsx lines 120-135: a one-shot select
of all messages of the room with the sender join, ordered by `created_at`
ascending. -/
def fetchMessages (db : Backend) (roomId : Nat) : List DisplayMessage :=
  (sortLeBy (fun m => m.created_at)
      (db.chat_messages.filter (fun m => m.room_id == roomId))).map
    (fun m => ⟨m, profileSender db m.user_id⟩)

/-- Outcome states of a trip-chat session (spec section 4.2): the session
either resolves to Ready or is denied. -/
inductive SessionState where
  | Denied
  | Ready
  deriving DecidableEq, Repr

/-- What one run of the chat-screen room resolution produces: the possibly
extended backend, the `isUserInChat` flag, the fetched room row, the fetched
message history, and the room the live subscription was opened on (`none` when
no subscription was opened). -/
structure ChatSessionResult where
  db : Backend
  isUserInChat : Bool
  chatRoom : Option ChatRoom
  messages : List DisplayMessage
  subscribedRoom : Option Nat
  deriving DecidableEq, Repr

/-- The `getChatRoom` of TripChatScreen.tsx lines 72-118: resolve the room
(find-or-create), test membership in `chat_room_participants`; without a
marker stop — no message fetch, no subscription; with a marker fetch the room
row, fetch the history, and subscribe to inserts filtered to this room. -/
def getChatRoom (db : Backend) (tripId uid newRoomId : Nat) : ChatSessionResult :=
  match get_or_create_trip_chat_room db tripId newRoomId with
  | (db1, roomId) =>
    match db1.chat_room_participants.find? (fun c => c.room_id == roomId && c.user_id == uid) with
    | none => ⟨db1, false, none, [], none⟩
    | some _ =>
      ⟨db1, true, db1.chat_rooms.find? (fun r => r.id == roomId),
        fetchMessages db1 roomId, some roomId⟩

/-- The render guard of TripChatScreen.tsx lines 279-289: without the
membership flag the session shows the terminal chat-unavailable state. -/
def sessionState (r : ChatSessionResult) : SessionState :=
  if r.isUserInChat then .Ready else .Denied

/-- Claim C5: when the requesting user holds no membership marker for the
trip's room the session resolves to Denied, no message history is fetched and
no live subscription is opened. -/
theorem chat_denied_no_fetch_no_subscription (db : Backend) (tripId uid newRoomId : Nat)
    (h : ∀ c ∈ db.chat_room_participants,
        ¬(c.room_id = resolvedRoomId db tripId newRoomId ∧ c.user_id = uid)) :
    sessionState (getChatRoom db tripId uid newRoomId) = .Denied
    ∧ (getChatRoom db tripId uid newRoomId).messages = []
    ∧ (getChatRoom db tripId uid newRoomId).subscribedRoom = none := by
  cases hgc : get_or_create_trip_chat_room db tripId newRoomId with
  | mk db1 roomId =>
    have hparts : db1.chat_room_participants = db.chat_room_participants := by
      have hx := (get_or_create_fields db tripId newRoomId).2.2.1
      rw [hgc] at hx
      exact hx
    have hroom : roomId = resolvedRoomId db tripId newRoomId := by
      have hx := get_or_create_snd db tripId newRoomId
      rw [hgc] at hx
      exact hx
    have hf : db1.chat_room_participants.find?
        (fun c => c.room_id == roomId && c.user_id == uid) = none := by
      rw [hparts, List.find?_eq_none]
      intro c hc hco
      simp only [Bool.and_eq_true, beq_iff_eq] at hco
      exact h c hc ⟨hroom ▸ hco.1, hco.2⟩
    simp [getChatRoom, hgc, hf, sessionState]

/-- Concrete backend for the denied-session witness: trip 1 has room 10 and no
membership markers at all. -/
def exDbC5 : Backend :=
  { trips := [⟨1, "Alps", "Hiking week", 10, 20, "Geneva", 5, 4⟩]
    trip_participants := []
    chat_rooms := [⟨10, 1, 0⟩]
    chat_room_participants := []
    chat_messages := [⟨1, 10, 5, "hi", 3⟩]
    profiles := [] }

/-- Witness for the denied-session theorem: user 7, who holds no marker,
resolves trip 1 to the Denied state with no fetch and no subscription. -/
theorem chat_denied_no_fetch_no_subscription_witness :
    sessionState (getChatRoom exDbC5 1 7 99) = .Denied
    ∧ (getChatRoom exDbC5 1 7 99).messages = []
    ∧ (getChatRoom exDbC5 1 7 99).subscribedRoom = none :=
  chat_denied_no_fetch_no_subscription exDbC5 1 7 99
    (fun c hc => absurd hc (List.not_mem_nil c))

/-- Claim C6: when the requesting user is a member of the trip's room the
session resolves to Ready and triggers exactly the one-shot history fetch —
all messages of that room, ordered by creation time ascending — and one live
subscription scoped to that room. -/
theorem chat_ready_fetch_and_subscribe (db : Backend) (tripId uid newRoomId : Nat)
    (c : ChatRoomParticipant) (hc : c ∈ db.chat_room_participants)
    (hcr : c.room_id = resolvedRoomId db tripId newRoomId) (hcu : c.user_id = uid) :
    sessionState (getChatRoom db tripId uid newRoomId) = .Ready
    ∧ ((getChatRoom db tripId uid newRoomId).messages.map (fun dm => dm.row)).Perm
        (db.chat_messages.filter
          (fun m => m.room_id == resolvedRoomId db tripId newRoomId))
    ∧ List.Pairwise (fun a b => a.row.created_at ≤ b.row.created_at)
        (getChatRoom db tripId uid newRoomId).messages
    ∧ (getChatRoom db tripId uid newRoomId).subscribedRoom
        = some (resolvedRoomId db tripId newRoomId) := by
  cases hgc : get_or_create_trip_chat_room db tripId newRoomId with
  | mk db1 roomId =>
    have hparts : db1.chat_room_participants = db.chat_room_participants := by
      have hx := (get_or_create_fields db tripId newRoomId).2.2.1
      rw [hgc] at hx
      exact hx
    have hmsgs : db1.chat_messages = db.chat_messages := by
      have hx := (get_or_create_fields db tripId newRoomId).2.2.2.1
      rw [hgc] at hx
      exact hx
    have hroom : roomId = resolvedRoomId db tripId newRoomId := by
      have hx := get_or_create_snd db tripId newRoomId
      rw [hgc] at hx
      exact hx
    cases hf : db1.chat_room_participants.find?
        (fun c => c.room_id == roomId && c.user_id == uid) with
    | none =>
      rw [List.find?_eq_none] at hf
      refine absurd ?_ (hf c (hparts ▸ hc))
      simp [hcu, hroom ▸ hcr]
    | some d =>
      have hmessages : (getChatRoom db tripId uid newRoomId).messages
          = fetchMessages db1 roomId := by
        simp [getChatRoom, hgc, hf]
      refine ⟨by simp [getChatRoom, hgc, hf, sessionState], ?_, ?_, ?_⟩
      · rw [hmessages]
        have hmap : (fetchMessages db1 roomId).map (fun dm => dm.row)
            = sortLeBy (fun m => m.created_at)
                (db1.chat_messages.filter (fun m => m.room_id == roomId)) := by
          simp [fetchMessages, List.map_map, Function.comp_def]
        rw [hmap, hmsgs, hroom]
        exact sortLeBy_perm _ _
      · rw [hmessages]
        unfold fetchMessages
        exact List.Pairwise.map
          (fun (m : ChatMessage) => (⟨m, profileSender db1 m.user_id⟩ : DisplayMessage))
          (fun a b hab => hab) (sortLeBy_pairwise (fun (m : ChatMessage) => m.created_at) _)
      · simp [getChatRoom, hgc, hf, ← hroom]

/-- Concrete backend for the ready-session witness: trip 1 has room 10, user
7 holds a marker for it, and the backend holds two messages of room 10 and one
of another room. -/
def exDbC6 : Backend :=
  { trips := [⟨1, "Alps", "Hiking week", 10, 20, "Geneva", 5, 4⟩]
    trip_participants := [⟨1, 1, 7, true⟩]
    chat_rooms := [⟨10, 1, 0⟩, ⟨11, 2, 0⟩]
    chat_room_participants := [⟨10, 7⟩]
    chat_messages := [⟨1, 10, 5, "hi", 8⟩, ⟨2, 11, 5, "elsewhere", 1⟩, ⟨3, 10, 7, "hey", 4⟩]
    profiles := [⟨5, "Ann", "Lee", none⟩, ⟨7, "Bo", "Kim", none⟩] }

/-- Witness for the ready-session theorem: member 7 of room 10 gets the Ready
state, the ordered history of room 10, and a subscription to room 10. -/
theorem chat_ready_fetch_and_subscribe_witness :
    sessionState (getChatRoom exDbC6 1 7 99) = .Ready
    ∧ ((getChatRoom exDbC6 1 7 99).messages.map (fun dm => dm.row)).Perm
        (exDbC6.chat_messages.filter (fun m => m.room_id == resolvedRoomId exDbC6 1 99))
    ∧ List.Pairwise (fun a b => a.row.created_at ≤ b.row.created_at)
        (getChatRoom exDbC6 1 7 99).messages
    ∧ (getChatRoom exDbC6 1 7 99).subscribedRoom = some (resolvedRoomId exDbC6 1 99) :=
  chat_ready_fetch_and_subscribe exDbC6 1 7 99 ⟨10, 7⟩ (by decide) (by decide) (by decide)

/-- Searching an appended list skips a first part with no match. -/
theorem find?_append_of_none {α : Type} {p : α → Bool} {l1 l2 : List α}
    (h : l1.find? p = none) : (l1 ++ l2).find? p = l2.find? p := by
  induction l1 with
  | nil => rfl
  | cons a l ih =>
    rw [List.find?_eq_none] at h
    have hpa : ¬ p a = true := h a (List.mem_cons_self a l)
    rw [List.cons_append, List.find?_cons_of_neg _ hpa]
    exact ih (List.find?_eq_none.mpr (fun x hx => h x (List.mem_cons_of_mem a hx)))

/-- Errors of the approval flow. -/
inductive ApproveError where
  | Unauthorized
  deriving DecidableEq, Repr

/-- Modelled from the spec: the server remote procedure `approve_participant`
is not part of src/.  Per the spec it is callable only by the trip's organizer
(failing with `Unauthorized` otherwise) and transitions the matching
participant row to `approved = true`. -/
def approve_participant (db : Backend) (tripId uid callerId : Nat) :
    Except ApproveError Backend :=
  match db.trips.find? (fun t => t.id == tripId) with
  | none => .error .Unauthorized
  | some t =>
    if t.organizer_id == callerId then
      .ok { db with
        trip_participants := db.trip_participants.map (fun p =>
          if p.trip_id == tripId && p.user_id == uid then { p with approved := true } else p) }
    else .error .Unauthorized

/-- Modelled from the spec: the server remote procedure
`add_participant_to_chat` is not part of src/.  Per the spec it grants the
user a `ChatRoomParticipant` marker for the trip's chat room, finding or
creating the room first if it does not yet exist. -/
def add_participant_to_chat (db : Backend) (tripId uid newRoomId : Nat) : Backend :=
  match get_or_create_trip_chat_room db tripId newRoomId with
  | (db1, roomId) =>
    { db1 with chat_room_participants := db1.chat_room_participants ++ [⟨roomId, uid⟩] }

/-- The `handleApproveParticipant` of TripDetailsScreen.tsx lines 161-184:
invoke `approve_participant`; on success, invoke `add_participant_to_chat` for
the same trip and user. -/
def handleApproveParticipant (db : Backend) (tripId uid callerId newRoomId : Nat) :
    Except ApproveError Backend :=
  match approve_participant db tripId uid callerId with
  | .error e => .error e
  | .ok db1 => .ok (add_participant_to_chat db1 tripId uid newRoomId)

/-- Claim C3: whenever the approval handler succeeds, every participant row of
the approved pair carries `approved = true`, the same user holds a membership
marker for the trip's chat room (found or created), and that user now resolves
the trip's chat session to Ready rather than Denied. -/
theorem approve_grants_chat_access (db : Backend) (tripId uid callerId newRoomId k : Nat)
    (db2 : Backend)
    (h : handleApproveParticipant db tripId uid callerId newRoomId = .ok db2) :
    (∀ p ∈ db2.trip_participants, p.trip_id = tripId → p.user_id = uid → p.approved = true)
    ∧ (∃ r ∈ db2.chat_rooms, r.trip_id = tripId
        ∧ ∃ c ∈ db2.chat_room_participants, c.room_id = r.id ∧ c.user_id = uid)
    ∧ sessionState (getChatRoom db2 tripId uid k) = .Ready := by
  cases ha : approve_participant db tripId uid callerId with
  | error e => simp [handleApproveParticipant, ha] at h
  | ok db1 =>
    simp only [handleApproveParticipant, ha, Except.ok.injEq] at h
    subst h
    cases hft : db.trips.find? (fun t => t.id == tripId) with
    | none => simp [approve_participant, hft] at ha
    | some t =>
      by_cases horg : (t.organizer_id == callerId) = true
      · simp only [approve_participant, hft, if_pos horg, Except.ok.injEq] at ha
        subst ha
        cases hfr : db.chat_rooms.find? (fun r => r.trip_id == tripId) with
        | some r0 =>
          simp only [add_participant_to_chat, get_or_create_trip_chat_room, hfr]
          refine ⟨?_, ?_, ?_⟩
          · intro p hp hpt hpu
            simp only [List.mem_map] at hp
            obtain ⟨q, hq, rfl⟩ := hp
            by_cases hqc : (q.trip_id == tripId && q.user_id == uid) = true
            · simp [hqc]
            · rw [if_neg hqc] at hpt hpu
              exact absurd (by simp [hpt, hpu]) hqc
          · refine ⟨r0, List.mem_of_find?_eq_some hfr,
              by simpa using List.find?_some hfr, ⟨r0.id, uid⟩, by simp, rfl, rfl⟩
          · cases hf2 : (db.chat_room_participants
                ++ [(⟨r0.id, uid⟩ : ChatRoomParticipant)]).find?
                  (fun c => c.room_id == r0.id && c.user_id == uid) with
            | none =>
              rw [List.find?_eq_none] at hf2
              exact absurd (by simp) (hf2 ⟨r0.id, uid⟩ (by simp))
            | some d =>
              simp [getChatRoom, get_or_create_trip_chat_room, hfr, hf2, sessionState]
        | none =>
          simp only [add_participant_to_chat, get_or_create_trip_chat_room, hfr]
          have hfr2 : (db.chat_rooms ++ [(⟨newRoomId, tripId, 0⟩ : ChatRoom)]).find?
              (fun r => r.trip_id == tripId) = some ⟨newRoomId, tripId, 0⟩ := by
            rw [find?_append_of_none hfr]
            simp
          refine ⟨?_, ?_, ?_⟩
          · intro p hp hpt hpu
            simp only [List.mem_map] at hp
            obtain ⟨q, hq, rfl⟩ := hp
            by_cases hqc : (q.trip_id == tripId && q.user_id == uid) = true
            · simp [hqc]
            · rw [if_neg hqc] at hpt hpu
              exact absurd (by simp [hpt, hpu]) hqc
          · refine ⟨⟨newRoomId, tripId, 0⟩, by simp, rfl, ⟨newRoomId, uid⟩, by simp, rfl, rfl⟩
          · cases hf2 : (db.chat_room_participants
                ++ [(⟨newRoomId, uid⟩ : ChatRoomParticipant)]).find?
                  (fun c => c.room_id == newRoomId && c.user_id == uid) with
            | none =>
              rw [List.find?_eq_none] at hf2
              exact absurd (by simp) (hf2 ⟨newRoomId, uid⟩ (by simp))
            | some d =>
              simp [getChatRoom, get_or_create_trip_chat_room, hfr2, hf2, sessionState]
      · simp only [approve_participant, hft] at ha
        rw [if_neg horg] at ha
        cases ha

/-- Concrete backend for the approval witness: trip 1 is organized by user 5
and user 7 has a pending participant row; no chat room exists yet. -/
def exDbC3 : Backend :=
  { trips := [⟨1, "Alps", "Hiking week", 10, 20, "Geneva", 5, 4⟩]
    trip_participants := [⟨2, 1, 7, false⟩]
    chat_rooms := []
    chat_room_participants := []
    chat_messages := []
    profiles := [] }

/-- The backend after organizer 5 approves user 7 on trip 1: the row is
approved, room 99 was created and user 7 got its marker. -/
def exDbC3post : Backend :=
  { trips := [⟨1, "Alps", "Hiking week", 10, 20, "Geneva", 5, 4⟩]
    trip_participants := [⟨2, 1, 7, true⟩]
    chat_rooms := [⟨99, 1, 0⟩]
    chat_room_participants := [⟨99, 7⟩]
    chat_messages := []
    profiles := [] }

/-- Witness for the approval theorem: organizer 5 approves user 7 on trip 1,
and user 7 afterwards resolves the chat session of trip 1 to Ready. -/
theorem approve_grants_chat_access_witness :
    (∀ p ∈ exDbC3post.trip_participants, p.trip_id = 1 → p.user_id = 7 → p.approved = true)
    ∧ (∃ r ∈ exDbC3post.chat_rooms, r.trip_id = 1
        ∧ ∃ c ∈ exDbC3post.chat_room_participants, c.room_id = r.id ∧ c.user_id = 7)
    ∧ sessionState (getChatRoom exDbC3post 1 7 50) = .Ready :=
  approve_grants_chat_access exDbC3 1 7 5 99 50 exDbC3post (by rfl)

/-- The live-subscription callback of TripChatScreen.tsx lines 148-169: a
delivered insert payload carries only the raw row, so the callback issues a
follow-up `profiles` lookup; only when that lookup yields data is the message
appended to the visible list — otherwise nothing happens. -/
def handleIncomingMessage (db : Backend) (current : List DisplayMessage)
    (payload : ChatMessage) : List DisplayMessage :=
  match profileSender db payload.user_id with
  | some s => current ++ [⟨payload, some s⟩]
  | none => current

/-- The `sendMessage` of TripChatScreen.tsx lines 176-198: blank (after trim)
text, a missing room or a missing user mean no insert; otherwise one
`chat_messages` row with the trimmed text is inserted.  `newId` and `time`
stand for the id and the creation timestamp the backend assigns to the new
row. -/
def sendMessage (db : Backend) (chatRoom : Option ChatRoom) (uid : Option Nat)
    (text : String) (newId time : Nat) : Backend :=
  if jsTrim text = "" then db
  else
    match chatRoom, uid with
    | some room, some u =>
      { db with chat_messages := db.chat_messages ++ [⟨newId, room.id, u, jsTrim text, time⟩] }
    | _, _ => db

/-- The screen-level effect of pressing send (TripChatScreen.tsx lines
176-198): the insert goes to the backend only — `sendMessage` never calls
`setMessages`, so the visible list is returned untouched and changes only when
the subscription callback fires. -/
def sendMessagePressed (db : Backend) (visible : List DisplayMessage)
    (chatRoom : Option ChatRoom) (uid : Option Nat) (text : String) (newId time : Nat) :
    Backend × List DisplayMessage :=
  (sendMessage db chatRoom uid text newId time, visible)

/-- Claim C10: a live-delivered message is appended to the visible list only
when the author's profile lookup succeeds; when the lookup returns nothing the
delivered message is silently dropped — the visible list is unchanged — and
this applies to the sender's own just-sent message as well. -/
theorem incoming_message_requires_profile (db : Backend) (current : List DisplayMessage)
    (payload : ChatMessage) :
    (profileSender db payload.user_id = none →
      handleIncomingMessage db current payload = current)
    ∧ (∀ s, profileSender db payload.user_id = some s →
      handleIncomingMessage db current payload = current ++ [⟨payload, some s⟩]) := by
  constructor
  · intro hnone
    simp [handleIncomingMessage, hnone]
  · intro s hs
    simp [handleIncomingMessage, hs]

/-- Concrete message for the dropped-delivery witness. -/
def exMsgC10 : ChatMessage := ⟨1, 10, 7, "hello", 5⟩

/-- Witness for the dropped-delivery theorem: with an empty `profiles` table
the delivered message is dropped and the visible list stays empty. -/
theorem incoming_message_requires_profile_witness :
    handleIncomingMessage ⟨[], [], [], [], [], []⟩ [] exMsgC10 = [] :=
  (incoming_message_requires_profile ⟨[], [], [], [], [], []⟩ [] exMsgC10).1 rfl

/-- Claim C4: blank (after trim) text is rejected with no insert and no change
to the visible list; a successful send appends exactly one backend row with
the trimmed text, adds no local optimistic copy, and the live-subscription
delivery then appends exactly one copy attributed to the sender — not zero
and not two. -/
theorem sendMessage_no_echo_one_copy (db : Backend) (visible : List DisplayMessage)
    (room : ChatRoom) (uid : Nat) (text : String) (newId time : Nat) (s : SenderInfo)
    (hs : profileSender db uid = some s)
    (hfresh : visible.filter (fun dm => dm.row.id == newId) = []) :
    (jsTrim text = "" →
      sendMessagePressed db visible (some room) (some uid) text newId time = (db, visible))
    ∧ (jsTrim text ≠ "" →
      sendMessagePressed db visible (some room) (some uid) text newId time
        = ({ db with chat_messages :=
              db.chat_messages ++ [⟨newId, room.id, uid, jsTrim text, time⟩] }, visible)
      ∧ (handleIncomingMessage db visible ⟨newId, room.id, uid, jsTrim text, time⟩).filter
            (fun dm => dm.row.id == newId)
          = [⟨⟨newId, room.id, uid, jsTrim text, time⟩, some s⟩]) := by
  constructor
  · intro hblank
    simp [sendMessagePressed, sendMessage, hblank]
  · intro hblank
    constructor
    · simp [sendMessagePressed, sendMessage, hblank]
    · simp [handleIncomingMessage, hs, List.filter_append, hfresh]

/-- Concrete backend for the send witness: user 7 has a profile; room 10
belongs to trip 1; no messages exist yet. -/
def exDbC4 : Backend :=
  { trips := [⟨1, "Alps", "Hiking week", 10, 20, "Geneva", 5, 4⟩]
    trip_participants := []
    chat_rooms := [⟨10, 1, 0⟩]
    chat_room_participants := [⟨10, 7⟩]
    chat_messages := []
    profiles := [⟨7, "Bo", "Kim", none⟩] }

/-- Witness for the send theorem: sending " hello " from user 7 inserts one
trimmed row and the delivery round trip appends exactly one copy. -/
theorem sendMessage_no_echo_one_copy_witness :
    sendMessagePressed exDbC4 [] (some ⟨10, 1, 0⟩) (some 7) " hello " 3 50
      = ({ exDbC4 with chat_messages :=
            exDbC4.chat_messages ++ [⟨3, 10, 7, jsTrim " hello ", 50⟩] }, [])
    ∧ (handleIncomingMessage exDbC4 [] ⟨3, 10, 7, jsTrim " hello ", 50⟩).filter
          (fun dm => dm.row.id == 3)
        = [⟨⟨3, 10, 7, jsTrim " hello ", 50⟩, some ⟨"Bo", "Kim", none⟩⟩] :=
  (sendMessage_no_echo_one_copy exDbC4 [] ⟨10, 1, 0⟩ 7 " hello " 3 50
    ⟨"Bo", "Kim", none⟩ rfl rfl).2 (by decide)

/-- Waypoint entry of the creation form (CreateTripScreen.tsx `interface
Waypoint`); the coordinates are carried opaquely — the screen never computes
on them — and are embedded as integers. -/
structure CWaypoint where
  id : Nat
  location_name : String
  latitude : Int
  longitude : Int
  sequence_order : Nat
  deriving DecidableEq, Repr

/-- The `addWaypoint` of CreateTripScreen.tsx lines 90-106: a blank name is
rejected with an alert; otherwise the waypoint is appended with sequence order
`waypoints.length + 1`. -/
def addWaypoint (ws : List CWaypoint) (name : String) (lat lng : Int) (newId : Nat) :
    List CWaypoint :=
  if jsTrim name = "" then ws
  else ws ++ [⟨newId, name, lat, lng, ws.length + 1⟩]

/-- The index-renumbering map of `removeWaypoint` (CreateTripScreen.tsx lines
113-116): the element at position idx gets sequence order idx+1, for every
remaining element. -/
def renumberFrom (k : Nat) : List CWaypoint → List CWaypoint
  | [] => []
  | w :: ws => { w with sequence_order := k } :: renumberFrom (k + 1) ws

/-- The `removeWaypoint` of CreateTripScreen.tsx lines 108-119: splice out one
index, then renumber the remainder 1, 2, ... in list order. -/
def removeWaypoint (ws : List CWaypoint) (index : Nat) : List CWaypoint :=
  renumberFrom 1 (ws.eraseIdx index)

/-- One user action on the waypoint list during trip creation. -/
inductive WaypointOp where
  | add (name : String) (lat lng : Int) (newId : Nat)
  | remove (index : Nat)

/-- Apply one waypoint action. -/
def applyWaypointOp (ws : List CWaypoint) : WaypointOp → List CWaypoint
  | .add name lat lng newId => addWaypoint ws name lat lng newId
  | .remove index => removeWaypoint ws index

/-- The waypoint list reached from the empty form by a sequence of actions. -/
def runWaypointOps (ops : List WaypointOp) : List CWaypoint :=
  ops.foldl applyWaypointOp []

/-- The sequence orders of a waypoint list, in list order. -/
def seqOrders (ws : List CWaypoint) : List Nat :=
  ws.map (fun w => w.sequence_order)

/-- Renumbering from k yields the orders k, k+1, ... -/
theorem seqOrders_renumberFrom (k : Nat) :
    ∀ ws : List CWaypoint, seqOrders (renumberFrom k ws) = List.range' k ws.length
  | [] => rfl
  | w :: ws => by
    simp only [renumberFrom, seqOrders, List.map_cons, List.length_cons, List.range'_succ]
    exact congrArg (List.cons k) (seqOrders_renumberFrom (k + 1) ws)

/-- Renumbering keeps the length. -/
theorem renumberFrom_length (k : Nat) :
    ∀ ws : List CWaypoint, (renumberFrom k ws).length = ws.length
  | [] => rfl
  | _ :: ws => congrArg Nat.succ (renumberFrom_length (k + 1) ws)

/-- Adding a waypoint preserves the contiguous-run invariant. -/
theorem seqOrders_addWaypoint (ws : List CWaypoint) (name : String) (lat lng : Int)
    (newId : Nat) (h : seqOrders ws = List.range' 1 ws.length) :
    seqOrders (addWaypoint ws name lat lng newId)
      = List.range' 1 (addWaypoint ws name lat lng newId).length := by
  unfold addWaypoint
  split
  · exact h
  · simp only [seqOrders, List.map_append, List.length_append, List.map_cons, List.map_nil,
      List.length_cons, List.length_nil]
    rw [show ws.length + (0 + 1) = ws.length + 1 by omega, List.range'_concat]
    rw [← seqOrders, h]
    simp [Nat.add_comm]

/-- Any action sequence starting from a list with contiguous orders 1..N ends
in a list with contiguous orders 1..N. -/
theorem seqOrders_foldl (ops : List WaypointOp) :
    ∀ ws : List CWaypoint, seqOrders ws = List.range' 1 ws.length →
      seqOrders (ops.foldl applyWaypointOp ws)
        = List.range' 1 (ops.foldl applyWaypointOp ws).length := by
  induction ops with
  | nil => exact fun ws h => h
  | cons op ops ih =>
    intro ws h
    simp only [List.foldl_cons]
    apply ih
    cases op with
    | add name lat lng newId => exact seqOrders_addWaypoint ws name lat lng newId h
    | remove index =>
      show seqOrders (removeWaypoint ws index) = List.range' 1 (removeWaypoint ws index).length
      rw [removeWaypoint, seqOrders_renumberFrom, renumberFrom_length]

/-- Claim C8: after any sequence of waypoint add and remove actions starting
from the empty creation form, the sequence orders are exactly the contiguous
ascending run 1..N in list order; adding either rejects a blank name (list
unchanged) or appends with order N+1, and removing renumbers the remainder
from 1. -/
theorem waypoint_orders_contiguous (ops : List WaypointOp) :
    seqOrders (runWaypointOps ops) = List.range' 1 (runWaypointOps ops).length
    ∧ (∀ (ws : List CWaypoint) (name : String) (lat lng : Int) (newId : Nat),
        addWaypoint ws name lat lng newId = ws
        ∨ addWaypoint ws name lat lng newId = ws ++ [⟨newId, name, lat, lng, ws.length + 1⟩])
    ∧ (∀ (ws : List CWaypoint) (index : Nat),
        removeWaypoint ws index = renumberFrom 1 (ws.eraseIdx index)) := by
  refine ⟨seqOrders_foldl ops [] rfl, ?_, fun ws index => rfl⟩
  intro ws name lat lng newId
  unfold addWaypoint
  split
  · exact Or.inl rfl
  · exact Or.inr rfl

/-- Leading decimal digits of a character list. -/
def leadingDigits (cs : List Char) : List Char := cs.takeWhile Char.isDigit

/-- Numeric value of a digit list. -/
def digitsToNat (ds : List Char) : Nat :=
  ds.foldl (fun acc c => acc * 10 + (c.toNat - '0'.toNat)) 0

/-- Magnitude part of JavaScript parseInt: the longest digit run at the
front, or none when no digit is there. -/
def parseIntDigits (cs : List Char) : Option Nat :=
  match leadingDigits cs with
  | [] => none
  | ds => some (digitsToNat ds)

/-- Model of JavaScript parseInt in base 10 as the creation screen uses it:
skip surrounding whitespace, read an optional sign, then the longest digit
run; NaN (here `none`) when no digit follows. -/
def jsParseInt (s : String) : Option Int :=
  match (jsTrim s).toList with
  | '-' :: rest => (parseIntDigits rest).map (fun n => -(n : Int))
  | '+' :: rest => (parseIntDigits rest).map (fun n => (n : Int))
  | cs => (parseIntDigits cs).map (fun n => (n : Int))

/-- The creation form fields (CreateTripScreen.tsx state; the participant
maximum is the raw text-input string, the dates are timestamps). -/
structure CreateTripForm where
  title : String
  description : String
  startLocation : String
  maxParticipants : String
  startDate : Nat
  endDate : Nat
  deriving DecidableEq, Repr

/-- The inline error messages `validateForm` sets (CreateTripScreen.tsx lines
70-88), one optional message per validated field. -/
structure FormErrors where
  title : Option String
  description : Option String
  startLocation : Option String
  maxParticipants : Option String
  endDate : Option String
  deriving DecidableEq, Repr

/-- The `validateForm` of CreateTripScreen.tsx lines 70-88. -/
def validateForm (f : CreateTripForm) : FormErrors :=
  { title := if jsTrim f.title = "" then some "Title is required" else none
    description := if jsTrim f.description = "" then some "Description is required" else none
    startLocation :=
      if jsTrim f.startLocation = "" then some "Start location is required" else none
    maxParticipants :=
      match jsParseInt f.maxParticipants with
      | none => some "Must allow at least 2 participants"
      | some n => if n < 2 then some "Must allow at least 2 participants" else none
    endDate := if f.endDate < f.startDate then some "End date must be after start date" else none }

/-- The submit guard of `validateForm`: `Object.keys(newErrors).length === 0`. -/
def hasNoErrors (e : FormErrors) : Bool :=
  e.title.isNone && e.description.isNone && e.startLocation.isNone
    && e.maxParticipants.isNone && e.endDate.isNone

/-- The `trips` row `handleCreateTrip` inserts (CreateTripScreen.tsx lines
128-142); validation guarantees the participant parse yields a number, so the
default of the `getD` is never reached on the persisting path. -/
structure TripRow where
  title : String
  description : String
  start_location : String
  start_date : Nat
  end_date : Nat
  max_participants : Int
  deriving DecidableEq, Repr

/-- One `trip_waypoints` row of the waypoint insert (CreateTripScreen.tsx
lines 148-154). -/
structure WaypointRow where
  trip_id : Nat
  location_name : String
  latitude : Int
  longitude : Int
  sequence_order : Nat
  deriving DecidableEq, Repr

/-- A backend write issued by `handleCreateTrip`. -/
inductive BackendCall where
  | insertTrip (row : TripRow)
  | insertWaypoints (rows : List WaypointRow)
  deriving DecidableEq, Repr

/-- The trip row built from the form. -/
def tripRowOf (f : CreateTripForm) : TripRow :=
  ⟨f.title, f.description, f.startLocation, f.startDate, f.endDate,
    (jsParseInt f.maxParticipants).getD 0⟩

/-- The waypoint row built from a form waypoint for the new trip. -/
def waypointRowOf (tripId : Nat) (wp : CWaypoint) : WaypointRow :=
  ⟨tripId, wp.location_name, wp.latitude, wp.longitude, wp.sequence_order⟩

/-- The `handleCreateTrip` of CreateTripScreen.tsx lines 121-171 as the list
of backend writes it issues: none when validation fails; otherwise the trip
insert followed, when waypoints exist, by the one waypoint-rows insert. -/
def handleCreateTrip (f : CreateTripForm) (ws : List CWaypoint) (newTripId : Nat) :
    List BackendCall :=
  if hasNoErrors (validateForm f) then
    if ws.length > 0 then
      [.insertTrip (tripRowOf f), .insertWaypoints (ws.map (waypointRowOf newTripId))]
    else [.insertTrip (tripRowOf f)]
  else []

/-- An if-then-some-else-none is none exactly when the condition fails. -/
theorem if_some_eq_none {c : Prop} [Decidable c] {m : String} :
    (if c then some m else none) = (none : Option String) ↔ ¬c := by
  split <;> simp_all

/-- Claim C9: no backend call is issued unless validation passes — the pass
condition being exactly nonblank title, description and starting location, a
parsed `max_participants` of at least 2, and `end_date >= start_date`; on
failure nothing is persisted (the errors are the surfaced inline messages),
and on success the trip row is inserted first, followed by all supplied
waypoints tagged with the ascending sequence orders 1..N in the order
supplied. -/
theorem createTrip_validates_then_persists (f : CreateTripForm) (ws : List CWaypoint)
    (tid : Nat) (hws : seqOrders ws = List.range' 1 ws.length) :
    (hasNoErrors (validateForm f) = true ↔
      (jsTrim f.title ≠ "" ∧ jsTrim f.description ≠ "" ∧ jsTrim f.startLocation ≠ ""
        ∧ (∃ n : Int, jsParseInt f.maxParticipants = some n ∧ 2 ≤ n)
        ∧ f.startDate ≤ f.endDate))
    ∧ (hasNoErrors (validateForm f) = false → handleCreateTrip f ws tid = [])
    ∧ (hasNoErrors (validateForm f) = true →
        handleCreateTrip f ws tid
          = .insertTrip (tripRowOf f)
            :: (if ws.length > 0 then [.insertWaypoints (ws.map (waypointRowOf tid))] else [])
        ∧ (ws.map (waypointRowOf tid)).map (fun r => r.sequence_order)
            = List.range' 1 ws.length) := by
  refine ⟨?_, ?_, ?_⟩
  · cases hp : jsParseInt f.maxParticipants with
    | none =>
      simp only [hasNoErrors, validateForm, hp, Bool.and_eq_true, Option.isNone_iff_eq_none,
        if_some_eq_none]
      constructor
      · rintro ⟨⟨⟨⟨h1, h2⟩, h3⟩, h4⟩, h5⟩
        exact absurd h4 (by simp)
      · rintro ⟨h1, h2, h3, ⟨n, hn, hn2⟩, h5⟩
        cases hn
    | some n =>
      by_cases hn : n < 2
      · simp only [hasNoErrors, validateForm, hp, if_pos hn, Bool.and_eq_true,
          Option.isNone_iff_eq_none, if_some_eq_none]
        constructor
        · rintro ⟨⟨⟨⟨h1, h2⟩, h3⟩, h4⟩, h5⟩
          exact absurd h4 (by simp)
        · rintro ⟨h1, h2, h3, ⟨m, hm, hm2⟩, h5⟩
          injection hm with hm
          omega
      · simp only [hasNoErrors, validateForm, hp, if_neg hn, Bool.and_eq_true,
          Option.isNone_iff_eq_none, if_some_eq_none]
        constructor
        · rintro ⟨⟨⟨⟨h1, h2⟩, h3⟩, h4⟩, h5⟩
          exact ⟨h1, h2, h3, ⟨n, rfl, by omega⟩, by omega⟩
        · rintro ⟨h1, h2, h3, hex, h5⟩
          exact ⟨⟨⟨⟨h1, h2⟩, h3⟩, trivial⟩, by omega⟩
  · intro hfail
    simp [handleCreateTrip, hfail]
  · intro hok
    constructor
    · by_cases hl : ws.length > 0 <;> simp [handleCreateTrip, hok, hl]
    · rw [List.map_map]
      exact hws

/-- Concrete valid creation form for the witness. -/
def exFormC9 : CreateTripForm := ⟨"Trip", "Desc", "Geneva", "4", 5, 9⟩

/-- Concrete one-waypoint list for the witness. -/
def exWsC9 : List CWaypoint := [⟨1, "A", 0, 0, 1⟩]

/-- Witness for the creation theorem: the valid form persists the trip row and
then the waypoint rows ordered from 1. -/
theorem createTrip_validates_then_persists_witness :
    handleCreateTrip exFormC9 exWsC9 42
      = [.insertTrip (tripRowOf exFormC9), .insertWaypoints [⟨42, "A", 0, 0, 1⟩]] :=
  ((createTrip_validates_then_persists exFormC9 exWsC9 42 (by decide)).2.2 (by decide)).1

end TravelBuddy
